import Mathlib

/-!
Shallow embedding of the media recommendation utility
(src/baseline_recommender.py and src/utils/reranker.py).

Python floats are modelled by rationals, Python dicts used as finite maps
by functions into Option, raised exceptions by Option-valued results,
and the serialized (JSON text) genre/tag columns by an abstract parse
outcome, since the claims only distinguish absent, malformed and
successfully parsed text.
-/

namespace AniAi

open List

/-- Outcome of a serialized JSON text column: absent stands for SQL NULL or
the empty string (falsy in Python), malformed for non-empty text on which
json.loads raises, and ok for text that parses to a value. -/
inductive JsonField (α : Type) where
  | absent : JsonField α
  | malformed : JsonField α
  | ok : α → JsonField α
deriving DecidableEq

/-- The lenient parse used by get_user_preferences (lines 22-30):
json.loads wrapped in try/except with fallback [], and falsy text
mapped to []. -/
def parseOrEmpty {α : Type} : JsonField (List α) → List α
  | .absent => []
  | .malformed => []
  | .ok v => v

/-- The parse used by get_global_media (lines 64-65): falsy text maps to [],
but json.loads is NOT wrapped in try/except, so malformed text raises
(modelled as none). -/
def parseOrRaise {α : Type} : JsonField (List α) → Option (List α)
  | .absent => some []
  | .malformed => none
  | .ok v => some v

/-- A tag is either a bare string or a dict; in a dict the name and rank
keys may each be absent (none). -/
inductive Tag where
  | str : String → Tag
  | dict : Option String → Option Int → Tag
deriving DecidableEq

/-- Resolution of a tag to a plain name: a dict uses tag.get("name", ""),
a bare string is used directly (lines 36-39 and 111-116). -/
def tagName : Tag → String
  | .str s => s
  | .dict n _ => n.getD ""

/-- Resolution of a tag to a rank: a dict uses tag.get("rank", 1),
a bare string gets rank 1 (lines 111-116). -/
def tagRank : Tag → ℚ
  | .str _ => 1
  | .dict _ r => ((r.getD 1 : Int) : ℚ)

/-- A media item as the dicts flowing through the recommender: items built
by get_global_media carry no average_score or popularity keys, which is
modelled by those fields being none. -/
structure MediaItem where
  id : Int
  title_romaji : Option String
  title_english : Option String
  title_native : Option String
  genres : List String
  tags : List Tag
  average_score : Option ℚ
  popularity : Option ℚ
deriving DecidableEq

/-- A row of the global_media table as selected by get_global_media
(id, three titles, serialized genres, serialized tags). -/
structure GlobalRow where
  id : Int
  title_romaji : Option String
  title_english : Option String
  title_native : Option String
  genres_text : JsonField (List String)
  tags_text : JsonField (List Tag)
deriving DecidableEq

/-- A row of media_list_entries joined with its media row in the personal
database: media_id and status and score from the entry, plus the joined
media's serialized genres and tags. -/
structure HistoryEntry where
  media_id : Int
  status : String
  score : Option ℚ
  genres_text : JsonField (List String)
  tags_text : JsonField (List Tag)
deriving DecidableEq

/-! ### Preference profile builder (get_user_preferences, lines 4-41) -/

/-- Lookup in the preference dict with default 0, i.e. preference.get(k, 0). -/
def prefGet (p : String → Option ℚ) (k : String) : ℚ := (p k).getD 0

/-- The dict update preference[k] = preference.get(k, 0) + v. -/
def prefAdd (p : String → Option ℚ) (k : String) (v : ℚ) : String → Option ℚ :=
  fun q => if q = k then some (prefGet p k + v) else p q

/-- Body of the per-entry loop of get_user_preferences (lines 31-40):
add the score to every genre key and then to every resolved tag-name key. -/
def addEntry (p : String → Option ℚ) (genres : List String) (tags : List Tag)
    (score : ℚ) : String → Option ℚ :=
  let p1 := genres.foldl (fun acc g => prefAdd acc g score) p
  tags.foldl (fun acc t => prefAdd acc (tagName t) score) p1

/-- The SQL predicate status = 'COMPLETED' AND score IS NOT NULL (line 15). -/
def qualifying (e : HistoryEntry) : Bool :=
  e.status == "COMPLETED" && e.score.isSome

/-- get_user_preferences (lines 4-41): fold the qualifying joined rows into
an initially empty weight dict, parsing genres and tags leniently. -/
def get_user_preferences (entries : List HistoryEntry) : String → Option ℚ :=
  (entries.filter qualifying).foldl
    (fun p e =>
      addEntry p (parseOrEmpty e.genres_text) (parseOrEmpty e.tags_text) (e.score.getD 0))
    (fun _ => none)

/-! ### Similarity scorer (compute_similarity, lines 97-129) -/

/-- compute_similarity (lines 97-129): genre matches add the full profile
weight, tag matches add weight * (rank / 100), then average_score * 0.1 and
popularity / 1000000 are added, with missing values treated as 0. -/
def compute_similarity (media : MediaItem) (preference : String → Option ℚ) : ℚ :=
  let s1 := media.genres.foldl
    (fun s g => match preference g with | some w => s + w | none => s) 0
  let s2 := media.tags.foldl
    (fun s t =>
      match preference (tagName t) with
      | some w => s + w * (tagRank t / 100)
      | none => s) s1
  let s3 := s2 + (media.average_score.getD 0) * (1 / 10)
  s3 + (media.popularity.getD 0) / 1000000

/-! ### Catalog reader (get_global_media, lines 43-68) -/

/-- One iteration of the row loop of get_global_media (lines 58-67): the
built dict has only id, the three titles, genres and tags keys, so
average_score and popularity are none; a parse failure on either
serialized column raises, which propagates (none). -/
def rowToMedia (r : GlobalRow) : Option MediaItem :=
  match parseOrRaise r.genres_text, parseOrRaise r.tags_text with
  | some gs, some ts =>
    some ⟨r.id, r.title_romaji, r.title_english, r.title_native, gs, ts, none, none⟩
  | _, _ => none

/-- get_global_media (lines 43-68): convert every row; an uncaught parse
exception on any row aborts the whole call (none). -/
def get_global_media : List GlobalRow → Option (List MediaItem)
  | [] => some []
  | r :: rs =>
    match rowToMedia r, get_global_media rs with
    | some m, some ms => some (m :: ms)
    | _, _ => none

/-! ### Engagement sets (lines 70-95) -/

/-- get_user_planned_media_ids (lines 70-81): distinct media ids with
status 'PLANNING'. -/
def get_user_planned_media_ids (entries : List HistoryEntry) : List Int :=
  ((entries.filter fun e => e.status == "PLANNING").map (fun e => e.media_id)).eraseDups

/-- get_user_watched_media_ids (lines 83-95): distinct media ids with any
status other than 'PLANNING'. -/
def get_user_watched_media_ids (entries : List HistoryEntry) : List Int :=
  ((entries.filter fun e => !(e.status == "PLANNING")).map (fun e => e.media_id)).eraseDups

/-! ### Recommendation engine (recommend_top_media, lines 131-174) -/

/-- Character-wise lowercase, modelling Python str.lower(). -/
def toLowerStr (s : String) : String := String.mk (s.data.map Char.toLower)

/-- Case-folded genre list of an item (lines 151 and 160). -/
def mediaGenresLower (m : MediaItem) : List String :=
  m.genres.map toLowerStr

/-- Case-folded tag-name list of an item (lines 152 and 161). -/
def mediaTagsLower (m : MediaItem) : List String :=
  m.tags.map (fun t => toLowerStr (tagName t))

/-- The genre filter of the loop (lines 149-154). A none desired_genre, and
also the empty string (falsy in Python, so the `if desired_genre:` guard is
not taken), leave every item in. -/
def passesGenreFilter (desired_genre : Option String) (m : MediaItem) : Bool :=
  match desired_genre with
  | none => true
  | some g =>
    if g = "" then true
    else (mediaGenresLower m).contains (toLowerStr g) || (mediaTagsLower m).contains (toLowerStr g)

/-- The genre/tag boost (lines 158-165): a case-folded genre match
multiplies by 1.2; otherwise a tag-name match multiplies by 1.1. -/
def applyGenreBoost (desired_genre : Option String) (m : MediaItem) (sim : ℚ) : ℚ :=
  match desired_genre with
  | none => sim
  | some g =>
    if g = "" then sim
    else if (mediaGenresLower m).contains (toLowerStr g) then sim * (6 / 5)
    else if (mediaTagsLower m).contains (toLowerStr g) then sim * (11 / 10)
    else sim

/-- The planned boost (lines 167-169): membership in the planned set
multiplies by 1.5. -/
def applyPlannedBoost (planned_ids : List Int) (m : MediaItem) (sim : ℚ) : ℚ :=
  if planned_ids.contains m.id then sim * (3 / 2) else sim

/-- Final loop-body score of one surviving item (lines 156-169). -/
def candidateScore (desired_genre : Option String) (preference : String → Option ℚ)
    (planned_ids : List Int) (m : MediaItem) : ℚ :=
  applyPlannedBoost planned_ids m
    (applyGenreBoost desired_genre m (compute_similarity m preference))

/-- The items that survive the watched-set skip (lines 146-147) and the
genre filter (lines 149-154), in catalog order. -/
def surviving (desired_genre : Option String) (watched_ids : List Int)
    (global_media : List MediaItem) : List MediaItem :=
  global_media.filter
    (fun m => !watched_ids.contains m.id && passesGenreFilter desired_genre m)

/-- The recommendations list as accumulated by the loop (lines 143-171):
every surviving item paired with its final score, in catalog order. -/
def scoredCandidates (desired_genre : Option String) (preference : String → Option ℚ)
    (planned_ids watched_ids : List Int) (global_media : List MediaItem) :
    List (MediaItem × ℚ) :=
  (surviving desired_genre watched_ids global_media).map
    (fun m => (m, candidateScore desired_genre preference planned_ids m))

/-- Comparison used to model recommendations.sort(key, reverse=True)
(line 173): descending by score, stable on ties. -/
def scoreDesc (a b : MediaItem × ℚ) : Bool := decide (b.2 ≤ a.2)

/-- recommend_top_media (lines 131-174) with the four store reads made
explicit parameters: filter, score, stable-sort descending, truncate. -/
def recommend_top_media (top_n : ℕ) (desired_genre : Option String)
    (preference : String → Option ℚ) (global_media : List MediaItem)
    (planned_ids watched_ids : List Int) : List (MediaItem × ℚ) :=
  ((scoredCandidates desired_genre preference planned_ids watched_ids
      global_media).mergeSort scoreDesc).take top_n

/-- The full pipeline of recommend_top_media (lines 138-141 plus the loop):
build the profile and the engagement sets from the history store, read the
catalog (which can raise on malformed rows), then recommend. -/
def recommend_pipeline (history : List HistoryEntry) (catalog : List GlobalRow)
    (top_n : ℕ) (desired_genre : Option String) : Option (List (MediaItem × ℚ)) :=
  match get_global_media catalog with
  | none => none
  | some media =>
    some (recommend_top_media top_n desired_genre (get_user_preferences history)
      media (get_user_planned_media_ids history) (get_user_watched_media_ids history))

/-! ### External re-ranker (src/utils/reranker.py, lines 16-56) -/

/-- A candidate dict handed to the re-ranker. Only the id matters for the
returned value; the other fields feed the prompt text. -/
structure Candidate where
  id : Int
  title : String
  format : String
  average_score : Option ℚ
  popularity : Option ℚ
deriving DecidableEq

/-- Outcome of the Gemini call and of parsing its response text, made an
explicit input of the shallow embedding. apiError covers an exception
raised by generate_content or by the response.text access, both of which
happen before the try block; the remaining cases classify json.loads on
the response text. -/
inductive GeminiOutcome where
  | apiError : GeminiOutcome
  | textNotJson : GeminiOutcome
  | jsonNotObject : GeminiOutcome
  | jsonMissingKey : GeminiOutcome
  | jsonIds : List Int → GeminiOutcome
  | jsonBadId : GeminiOutcome
deriving DecidableEq

/-- rerank_candidates_with_gemini (reranker.py lines 16-56). The API call
and the response.text access sit outside the try block, so apiError
propagates (none). Inside the try block: json.loads failure, a non-object
reply (whose .get raises AttributeError) and an id on which int() raises
are caught and fall back to the original candidate order; a JSON object
without the 'candidate_ids' key yields parsed.get(..., []) = [] and the
function returns the empty list. -/
def rerank_candidates_with_gemini (outcome : GeminiOutcome)
    (candidates : List Candidate) : Option (List Int) :=
  match outcome with
  | .apiError => none
  | .textNotJson => some (candidates.map (fun c => c.id))
  | .jsonNotObject => some (candidates.map (fun c => c.id))
  | .jsonMissingKey => some []
  | .jsonIds ids => some ids
  | .jsonBadId => some (candidates.map (fun c => c.id))

/-! ### Helper lemmas about the accumulating folds -/

theorem foldl_add_map {α : Type} (f : α → ℚ) (l : List α) :
    ∀ init : ℚ, l.foldl (fun s x => s + f x) init = init + (l.map f).sum := by
  induction l with
  | nil => intro init; simp
  | cons x l ih => intro init; simp only [List.foldl_cons, List.map_cons, List.sum_cons, ih]; ring

/-- The genre component of compute_similarity: full profile weight for each
genre occurrence that is a profile key. -/
def genreTerm (m : MediaItem) (p : String → Option ℚ) : ℚ :=
  (m.genres.map fun g => match p g with | some w => w | none => 0).sum

/-- The tag component of compute_similarity: profile weight damped by
rank / 100 for each tag whose resolved name is a profile key. -/
def tagTerm (m : MediaItem) (p : String → Option ℚ) : ℚ :=
  (m.tags.map fun t =>
    match p (tagName t) with | some w => w * (tagRank t / 100) | none => 0).sum

theorem compute_similarity_decomp (m : MediaItem) (p : String → Option ℚ) :
    compute_similarity m p =
      genreTerm m p + tagTerm m p + (m.average_score.getD 0) * (1 / 10)
        + (m.popularity.getD 0) / 1000000 := by
  have hg : (fun (s : ℚ) g => match p g with | some w => s + w | none => s)
      = fun s g => s + (match p g with | some w => w | none => 0) := by
    funext s g; cases p g <;> simp
  have ht : (fun (s : ℚ) t =>
        match p (tagName t) with | some w => s + w * (tagRank t / 100) | none => s)
      = fun s t => s + (match p (tagName t) with | some w => w * (tagRank t / 100) | none => 0) := by
    funext s t; cases p (tagName t) <;> simp
  simp only [compute_similarity, genreTerm, tagTerm, hg, ht, foldl_add_map]
  ring

theorem prefGet_prefAdd (p : String → Option ℚ) (k q : String) (v : ℚ) :
    prefGet (prefAdd p k v) q = prefGet p q + (if q = k then v else 0) := by
  by_cases h : q = k
  · subst h; simp [prefGet, prefAdd]
  · simp [prefGet, prefAdd, h]

theorem prefGet_foldl_names (s : ℚ) (k : String) :
    ∀ (names : List String) (p : String → Option ℚ),
      prefGet (names.foldl (fun acc g => prefAdd acc g s) p) k
        = prefGet p k + s * names.count k := by
  intro names
  induction names with
  | nil => intro p; simp
  | cons g names ih =>
    intro p
    rw [List.foldl_cons, ih, prefGet_prefAdd, List.count_cons]
    by_cases h : g = k
    · subst h
      simp only [beq_self_eq_true, if_true, if_pos rfl]
      push_cast
      ring
    · have hb : (g == k) = false := beq_eq_false_iff_ne.mpr h
      have hk : ¬ k = g := fun e => h e.symm
      simp only [hb, if_neg hk, Bool.false_eq_true, if_false]
      push_cast
      ring

theorem prefGet_foldl_tags (s : ℚ) (k : String) :
    ∀ (tags : List Tag) (p : String → Option ℚ),
      prefGet (tags.foldl (fun acc t => prefAdd acc (tagName t) s) p) k
        = prefGet p k + s * (tags.map tagName).count k := by
  intro tags
  induction tags with
  | nil => intro p; simp
  | cons t tags ih =>
    intro p
    rw [List.foldl_cons, ih, prefGet_prefAdd, List.map_cons, List.count_cons]
    by_cases h : tagName t = k
    · rw [h]
      simp only [beq_self_eq_true, if_true, if_pos rfl]
      push_cast
      ring
    · have hb : (tagName t == k) = false := beq_eq_false_iff_ne.mpr h
      have hk : ¬ k = tagName t := fun e => h e.symm
      simp only [hb, if_neg hk, Bool.false_eq_true, if_false]
      push_cast
      ring

theorem prefGet_addEntry (p : String → Option ℚ) (genres : List String) (tags : List Tag)
    (s : ℚ) (k : String) :
    prefGet (addEntry p genres tags s) k
      = prefGet p k + s * (genres.count k + ((tags.map tagName).count k : ℚ)) := by
  unfold addEntry
  rw [prefGet_foldl_tags, prefGet_foldl_names]
  ring

/-- The contribution of one qualifying entry to the profile weight of a
term: its score times the number of occurrences of the term among its
parsed genres plus its resolved tag names. -/
def entryContrib (k : String) (e : HistoryEntry) : ℚ :=
  (e.score.getD 0) * (((parseOrEmpty e.genres_text).count k : ℚ)
    + (((parseOrEmpty e.tags_text).map tagName).count k : ℚ))

theorem prefGet_foldl_entries (k : String) :
    ∀ (rows : List HistoryEntry) (p : String → Option ℚ),
      prefGet (rows.foldl
          (fun p e => addEntry p (parseOrEmpty e.genres_text) (parseOrEmpty e.tags_text)
            (e.score.getD 0)) p) k
        = prefGet p k + ((rows.map (entryContrib k)).sum) := by
  intro rows
  induction rows with
  | nil => intro p; simp
  | cons e rows ih =>
    intro p
    rw [List.foldl_cons, ih, prefGet_addEntry]
    simp only [List.map_cons, List.sum_cons, entryContrib]
    ring

theorem prefGet_get_user_preferences (entries : List HistoryEntry) (k : String) :
    prefGet (get_user_preferences entries) k
      = ((entries.filter qualifying).map (entryContrib k)).sum := by
  unfold get_user_preferences
  rw [prefGet_foldl_entries]
  simp [prefGet]

/-- Weight that the claim wording of C2 assigns to a term: the sum of the
scores of all qualifying entries whose parsed genres or resolved tag names
include the term (each entry counted once). -/
def claimProfileWeight (entries : List HistoryEntry) (k : String) : ℚ :=
  ((entries.filter fun e => qualifying e
      && ((parseOrEmpty e.genres_text).contains k
          || ((parseOrEmpty e.tags_text).map tagName).contains k)).map
    (fun e => e.score.getD 0)).sum

/-! ### Claim theorems -/

/-- C1: for every media item and preference profile, the similarity score
equals the sum, starting from 0, of the full profile weight of each genre
that is a profile key, plus profile weight times rank / 100 for each tag
whose resolved name is a profile key (structured tags default rank to 1
when the field is absent, bare tags have rank 1), plus average_score * 0.1
and popularity / 1000000 with missing values treated as 0. -/
theorem similarity_is_component_sum (m : MediaItem) (p : String → Option ℚ) :
    compute_similarity m p =
      genreTerm m p + tagTerm m p + (m.average_score.getD 0) * (1 / 10)
        + (m.popularity.getD 0) / 1000000 :=
  compute_similarity_decomp m p

/-- C2 (counterexample): a single COMPLETED entry with score 7 whose media
carries "Action" both as a genre and as a tag receives profile weight 14
(the score is added once along the genre path and once along the tag path),
while the claimed sum over entries containing the term gives 7. -/
theorem profile_not_sum_over_entries :
    prefGet (get_user_preferences
        [⟨1, "COMPLETED", some 7, .ok ["Action"], .ok [Tag.str "Action"]⟩]) "Action" = 14
    ∧ claimProfileWeight
        [⟨1, "COMPLETED", some 7, .ok ["Action"], .ok [Tag.str "Action"]⟩] "Action" = 7
    ∧ prefGet (get_user_preferences
        [⟨1, "COMPLETED", some 7, .ok ["Action"], .ok [Tag.str "Action"]⟩]) "Action"
      ≠ claimProfileWeight
        [⟨1, "COMPLETED", some 7, .ok ["Action"], .ok [Tag.str "Action"]⟩] "Action" := by
  have h1 : prefGet (get_user_preferences
      [⟨1, "COMPLETED", some 7, .ok ["Action"], .ok [Tag.str "Action"]⟩]) "Action" = 14 := by
    simp [get_user_preferences, qualifying, addEntry, parseOrEmpty, prefAdd, prefGet, tagName]
    norm_num
  have h2 : claimProfileWeight
      [⟨1, "COMPLETED", some 7, .ok ["Action"], .ok [Tag.str "Action"]⟩] "Action" = 7 := by
    simp [claimProfileWeight, qualifying, parseOrEmpty, tagName]
  refine ⟨h1, h2, ?_⟩
  rw [h1, h2]
  norm_num

/-- C2 (amended): the profile maps each term to the sum, over entries with
status COMPLETED and a non-null score, of the entry's score multiplied by
the number of occurrences of the term among the entry's parsed genres plus
its resolved tag names (so a term appearing as both a genre and a tag of
one entry receives the score twice); in particular two COMPLETED entries
with scores 7 and 9 both carrying genre "Action" yield weight 16. -/
theorem profile_weight_eq_contrib_sum :
    (∀ (entries : List HistoryEntry) (k : String),
      prefGet (get_user_preferences entries) k
        = ((entries.filter qualifying).map (entryContrib k)).sum)
    ∧ prefGet (get_user_preferences
        [⟨1, "COMPLETED", some 7, .ok ["Action"], .ok []⟩,
         ⟨2, "COMPLETED", some 9, .ok ["Action"], .ok []⟩]) "Action" = 16 :=
  ⟨prefGet_get_user_preferences, by
    simp [get_user_preferences, qualifying, addEntry, parseOrEmpty, prefAdd, prefGet, tagName]
    norm_num⟩

/-- Sample catalog item used to instantiate hypotheses at concrete inputs. -/
def sampleItem : MediaItem :=
  ⟨1, none, some "A", none, ["Action"], [Tag.str "Drama"], none, none⟩

/-- Sample item carrying "Comedy" both as a genre and as a structured tag. -/
def comedyItem : MediaItem :=
  ⟨2, none, some "B", none, ["Comedy"], [Tag.dict (some "Comedy") (some 50)], none, none⟩

/-- C3: a catalog item whose id belongs to the watched set never appears in
the output of the recommendation engine, for any score, desired_genre and
top_n. -/
theorem watched_never_recommended (top_n : ℕ) (desired_genre : Option String)
    (preference : String → Option ℚ) (global_media : List MediaItem)
    (planned_ids watched_ids : List Int) (m : MediaItem) (s : ℚ)
    (hw : watched_ids.contains m.id = true) :
    (m, s) ∉ recommend_top_media top_n desired_genre preference global_media
      planned_ids watched_ids := by
  intro hmem
  unfold recommend_top_media at hmem
  have h1 := List.mem_of_mem_take hmem
  rw [List.mem_mergeSort] at h1
  unfold scoredCandidates at h1
  rcases List.mem_map.mp h1 with ⟨m2, hm2, heq⟩
  have hm : m2 = m := congrArg Prod.fst heq
  subst hm
  unfold surviving at hm2
  rcases List.mem_filter.mp hm2 with ⟨_, hcond⟩
  rw [hw] at hcond
  simp at hcond

theorem watched_never_recommended_witness :
    ([(1 : Int)].contains sampleItem.id = true)
    ∧ (sampleItem, (0 : ℚ)) ∉ recommend_top_media 10 none (fun _ => none)
        [sampleItem] [] [1] :=
  ⟨by decide,
   watched_never_recommended 10 none (fun _ => none) [sampleItem] [] [1] sampleItem 0
     (by decide)⟩

/-- C4: when desired_genre is set (truthy), an item survives the filter only
if the case-folded desired_genre equals one of its case-folded genres or
case-folded tag names; a genre match multiplies the score by exactly 1.2
(even when a tag also matches), otherwise a tag match multiplies by exactly
1.1, and with no match the score is unchanged. -/
theorem genre_filter_and_boost (g : String) (m : MediaItem)
    (watched_ids : List Int) (global_media : List MediaItem) (hg : g ≠ "") :
    (m ∈ surviving (some g) watched_ids global_media →
      (mediaGenresLower m).contains (toLowerStr g) = true
        ∨ (mediaTagsLower m).contains (toLowerStr g) = true)
    ∧ (∀ sim : ℚ, (mediaGenresLower m).contains (toLowerStr g) = true →
        applyGenreBoost (some g) m sim = sim * (6 / 5))
    ∧ (∀ sim : ℚ, (mediaGenresLower m).contains (toLowerStr g) = false →
        (mediaTagsLower m).contains (toLowerStr g) = true →
        applyGenreBoost (some g) m sim = sim * (11 / 10))
    ∧ (∀ sim : ℚ, (mediaGenresLower m).contains (toLowerStr g) = false →
        (mediaTagsLower m).contains (toLowerStr g) = false →
        applyGenreBoost (some g) m sim = sim) := by
  refine ⟨?_, ?_, ?_, ?_⟩
  · intro hm
    unfold surviving at hm
    rcases List.mem_filter.mp hm with ⟨_, hcond⟩
    simp only [passesGenreFilter, if_neg hg, Bool.and_eq_true, Bool.or_eq_true] at hcond
    exact hcond.2
  · intro sim hgen
    simp at hgen
    simp [applyGenreBoost, hg, hgen]
  · intro sim hgen htag
    simp at hgen htag
    simp [applyGenreBoost, hg, hgen, htag]
  · intro sim hgen htag
    simp at hgen htag
    simp [applyGenreBoost, hg, hgen, htag]

theorem genre_filter_and_boost_witness :
    ((mediaGenresLower comedyItem).contains (toLowerStr "Comedy") = true)
    ∧ ((mediaTagsLower comedyItem).contains (toLowerStr "Comedy") = true)
    ∧ applyGenreBoost (some "Comedy") comedyItem 10 = 10 * (6 / 5) :=
  ⟨by decide, by decide,
   (genre_filter_and_boost "Comedy" comedyItem [] [] (by decide)).2.1 10 (by decide)⟩

/-- C5: for every candidate, the loop-body score equals the genre/tag
boosted similarity times exactly 1.5 when the id is in the planned set, and
equals that boosted similarity unchanged otherwise. -/
theorem planned_boost_exact (desired_genre : Option String)
    (preference : String → Option ℚ) (planned_ids : List Int) (m : MediaItem) :
    (planned_ids.contains m.id = true →
      candidateScore desired_genre preference planned_ids m
        = applyGenreBoost desired_genre m (compute_similarity m preference) * (3 / 2))
    ∧ (planned_ids.contains m.id = false →
      candidateScore desired_genre preference planned_ids m
        = applyGenreBoost desired_genre m (compute_similarity m preference)) := by
  constructor <;> intro h <;> simp at h <;> simp [candidateScore, applyPlannedBoost, h]

theorem planned_boost_exact_witness :
    ([(2 : Int)].contains comedyItem.id = true)
    ∧ candidateScore none (fun _ => none) [2] comedyItem
        = applyGenreBoost none comedyItem (compute_similarity comedyItem (fun _ => none))
            * (3 / 2) :=
  ⟨by decide, (planned_boost_exact none (fun _ => none) [2] comedyItem).1 (by decide)⟩

theorem scoreDesc_trans :
    ∀ a b c : MediaItem × ℚ, scoreDesc a b → scoreDesc b c → scoreDesc a c := by
  intro a b c hab hbc
  simp only [scoreDesc, decide_eq_true_eq] at *
  exact le_trans hbc hab

theorem scoreDesc_total : ∀ a b : MediaItem × ℚ, scoreDesc a b || scoreDesc b a := by
  intro a b
  simp only [scoreDesc, Bool.or_eq_true, decide_eq_true_eq]
  exact le_total b.2 a.2

theorem pairwise_filter_of_all {α : Type} (p : α → Bool) (R : α → α → Prop)
    (h : ∀ a b, p a = true → p b = true → R a b) :
    ∀ l : List α, (l.filter p).Pairwise R := by
  intro l
  induction l with
  | nil => simp
  | cons x l ih =>
    by_cases hx : p x = true
    · rw [List.filter_cons_of_pos hx]
      exact List.Pairwise.cons (fun b hb => h x b hx (List.of_mem_filter hb)) ih
    · rw [List.filter_cons_of_neg (by simpa using hx)]
      exact ih

/-- Stability of mergeSort for a class of elements on which the comparison
always holds: their subsequence is preserved verbatim. -/
theorem filter_mergeSort_eq {α : Type} (le : α → α → Bool)
    (htrans : ∀ a b c, le a b → le b c → le a c)
    (htotal : ∀ a b, le a b || le b a)
    (p : α → Bool) (hp : ∀ a b, p a = true → p b = true → le a b = true)
    (l : List α) : (l.mergeSort le).filter p = l.filter p := by
  have hpw : (l.filter p).Pairwise (fun a b => le a b = true) :=
    pairwise_filter_of_all p _ hp l
  have hsub : l.filter p <+ l.mergeSort le :=
    List.sublist_mergeSort htrans htotal hpw (List.filter_sublist l)
  have hsub2 : l.filter p <+ (l.mergeSort le).filter p := by
    have h2 := hsub.filter p
    rwa [List.filter_filter, show (fun a => p a && p a) = p from by
      funext a; exact Bool.and_self (p a)] at h2
  have hperm : (l.mergeSort le).filter p ~ l.filter p :=
    (List.mergeSort_perm l le).filter p
  exact (hsub2.eq_of_length hperm.length_eq.symm).symm

/-- C6: the engine returns at most top_n pairs, in descending score order;
they are the top_n highest-scoring surviving candidates (everything dropped
by the truncation scores no higher, and output plus dropped is a
permutation of the scored candidate pool); and candidates with equal scores
keep their original catalog enumeration order (the output's equal-score
subsequence is an initial segment of the pool's). -/
theorem top_n_ordered_stable (top_n : ℕ) (desired_genre : Option String)
    (preference : String → Option ℚ) (global_media : List MediaItem)
    (planned_ids watched_ids : List Int) :
    (recommend_top_media top_n desired_genre preference global_media planned_ids
        watched_ids).length ≤ top_n
    ∧ (recommend_top_media top_n desired_genre preference global_media planned_ids
        watched_ids).Pairwise (fun a b => b.2 ≤ a.2)
    ∧ (∀ x ∈ recommend_top_media top_n desired_genre preference global_media planned_ids
          watched_ids,
       ∀ y ∈ ((scoredCandidates desired_genre preference planned_ids watched_ids
          global_media).mergeSort scoreDesc).drop top_n, y.2 ≤ x.2)
    ∧ (recommend_top_media top_n desired_genre preference global_media planned_ids
          watched_ids
        ++ ((scoredCandidates desired_genre preference planned_ids watched_ids
          global_media).mergeSort scoreDesc).drop top_n)
      ~ scoredCandidates desired_genre preference planned_ids watched_ids global_media
    ∧ ∀ s : ℚ,
        (recommend_top_media top_n desired_genre preference global_media planned_ids
          watched_ids).filter (fun c => decide (c.2 = s))
        <+: (scoredCandidates desired_genre preference planned_ids watched_ids
          global_media).filter (fun c => decide (c.2 = s)) := by
  have hsorted : ((scoredCandidates desired_genre preference planned_ids watched_ids
      global_media).mergeSort scoreDesc).Pairwise (fun a b => b.2 ≤ a.2) := by
    have h := List.sorted_mergeSort scoreDesc_trans scoreDesc_total
      (scoredCandidates desired_genre preference planned_ids watched_ids global_media)
    exact h.imp (fun hab => by simpa [scoreDesc] using hab)
  refine ⟨?_, ?_, ?_, ?_, ?_⟩
  · unfold recommend_top_media
    simp
  · exact List.Pairwise.sublist (List.take_sublist top_n _) hsorted
  · intro x hx y hy
    have hsplit := hsorted
    rw [← List.take_append_drop top_n ((scoredCandidates desired_genre preference
      planned_ids watched_ids global_media).mergeSort scoreDesc)] at hsplit
    exact (List.pairwise_append.mp hsplit).2.2 x hx y hy
  · unfold recommend_top_media
    rw [List.take_append_drop]
    exact List.mergeSort_perm _ scoreDesc
  · intro s
    have hstable := filter_mergeSort_eq scoreDesc scoreDesc_trans scoreDesc_total
      (fun c => decide (c.2 = s))
      (fun a b ha hb => by
        simp only [decide_eq_true_eq] at ha hb
        simp [scoreDesc, ha, hb])
      (scoredCandidates desired_genre preference planned_ids watched_ids global_media)
    rw [← hstable]
    exact List.IsPrefix.filter _
      ⟨((scoredCandidates desired_genre preference planned_ids watched_ids
          global_media).mergeSort scoreDesc).drop top_n, List.take_append_drop _ _⟩

theorem top_n_ordered_stable_witness :
    (recommend_top_media 1 none (fun _ => none) [sampleItem, comedyItem] [] []).length ≤ 1 :=
  (top_n_ordered_stable 1 none (fun _ => none) [sampleItem, comedyItem] [] []).1

/-- C7 (counterexample): a catalog row whose serialized genres text is
malformed makes get_global_media raise (none): the record does not degrade
to empty genres, and the error is propagated. -/
theorem reader_raises_on_malformed :
    get_global_media [⟨1, none, none, none, JsonField.malformed, JsonField.absent⟩] = none
    ∧ get_global_media [⟨1, none, none, none, JsonField.malformed, JsonField.absent⟩]
      ≠ some [⟨1, none, none, none, [], [], none, none⟩] :=
  ⟨rfl, by decide⟩

/-- C7 (amended): in the preference-profile builder a malformed serialized
genres or tags text degrades to an empty list for that record and no error
is propagated; in the catalog reader only absent (NULL or empty) text
degrades to an empty list, while malformed text raises an error that aborts
the whole read. -/
theorem malformed_fields_handling :
    (∀ (mid : Int) (st : String) (sc : Option ℚ) (tt : JsonField (List Tag))
        (rest : List HistoryEntry),
      get_user_preferences (⟨mid, st, sc, JsonField.malformed, tt⟩ :: rest)
        = get_user_preferences (⟨mid, st, sc, JsonField.ok [], tt⟩ :: rest))
    ∧ (∀ (mid : Int) (st : String) (sc : Option ℚ) (gt : JsonField (List String))
        (rest : List HistoryEntry),
      get_user_preferences (⟨mid, st, sc, gt, JsonField.malformed⟩ :: rest)
        = get_user_preferences (⟨mid, st, sc, gt, JsonField.ok []⟩ :: rest))
    ∧ (∀ (rows : List GlobalRow) (r : GlobalRow), r ∈ rows →
        (r.genres_text = JsonField.malformed ∨ r.tags_text = JsonField.malformed) →
        get_global_media rows = none)
    ∧ (∀ (i : Int) (t1 t2 t3 : Option String),
        rowToMedia ⟨i, t1, t2, t3, JsonField.absent, JsonField.absent⟩
          = some ⟨i, t1, t2, t3, [], [], none, none⟩) := by
  refine ⟨?_, ?_, ?_, ?_⟩
  · intro mid st sc tt rest
    unfold get_user_preferences
    have hq : qualifying ⟨mid, st, sc, JsonField.malformed, tt⟩
        = qualifying ⟨mid, st, sc, JsonField.ok [], tt⟩ := rfl
    by_cases h : qualifying (⟨mid, st, sc, JsonField.ok [], tt⟩ : HistoryEntry) = true
    · rw [filter_cons_of_pos (hq ▸ h), filter_cons_of_pos h]
      rfl
    · rw [filter_cons_of_neg (fun hc => h (hq ▸ hc)), filter_cons_of_neg h]
  · intro mid st sc gt rest
    unfold get_user_preferences
    have hq : qualifying ⟨mid, st, sc, gt, JsonField.malformed⟩
        = qualifying ⟨mid, st, sc, gt, JsonField.ok []⟩ := rfl
    by_cases h : qualifying (⟨mid, st, sc, gt, JsonField.ok []⟩ : HistoryEntry) = true
    · rw [filter_cons_of_pos (hq ▸ h), filter_cons_of_pos h]
      rfl
    · rw [filter_cons_of_neg (fun hc => h (hq ▸ hc)), filter_cons_of_neg h]
  · intro rows
    induction rows with
    | nil => intro r hr _; cases hr
    | cons a rows ih =>
      intro r hr hbad
      rcases mem_cons.mp hr with h | h
      · subst h
        have hra : rowToMedia r = none := by
          rcases hbad with hb | hb
          · unfold rowToMedia
            rw [hb]
            cases parseOrRaise r.tags_text <;> rfl
          · unfold rowToMedia
            rw [hb]
            cases parseOrRaise r.genres_text <;> rfl
        unfold get_global_media
        rw [hra]
      · have hnone := ih r h hbad
        unfold get_global_media
        rw [hnone]
        cases rowToMedia a <;> rfl
  · intro i t1 t2 t3
    rfl

theorem malformed_fields_handling_witness :
    get_user_preferences
        [⟨1, "COMPLETED", some 7, JsonField.malformed, JsonField.ok []⟩]
      = get_user_preferences
        [⟨1, "COMPLETED", some 7, JsonField.ok [], JsonField.ok []⟩]
    ∧ get_global_media [⟨2, none, none, none, JsonField.malformed, JsonField.absent⟩]
      = none :=
  ⟨malformed_fields_handling.1 1 "COMPLETED" (some 7) (JsonField.ok []) [],
   malformed_fields_handling.2.2.1
     [⟨2, none, none, none, JsonField.malformed, JsonField.absent⟩]
     ⟨2, none, none, none, JsonField.malformed, JsonField.absent⟩
     (mem_cons_self _ _) (Or.inl rfl)⟩

/-- C8 (counterexample): an API error raised by the Gemini call propagates
to the caller (none), and a valid JSON object missing the candidate_ids key
yields the empty list rather than the candidate ids in original order. -/
theorem reranker_not_always_fallback :
    rerank_candidates_with_gemini GeminiOutcome.apiError [⟨5, "T", "TV", none, none⟩] = none
    ∧ rerank_candidates_with_gemini GeminiOutcome.jsonMissingKey
        [⟨5, "T", "TV", none, none⟩] = some []
    ∧ some [] ≠ some [(5 : Int)] :=
  ⟨rfl, rfl, by decide⟩

/-- C8 (amended): on a non-JSON reply, a non-object JSON reply, or a
candidate id on which integer conversion raises, the re-ranker returns the
candidate ids in their original input order; on a JSON object missing the
candidate_ids key it returns the empty list; an error in the API call
itself (or in accessing the response text) is not caught and propagates to
the caller. -/
theorem reranker_fallback_behaviour (candidates : List Candidate) :
    rerank_candidates_with_gemini GeminiOutcome.textNotJson candidates
      = some (candidates.map (fun c => c.id))
    ∧ rerank_candidates_with_gemini GeminiOutcome.jsonNotObject candidates
      = some (candidates.map (fun c => c.id))
    ∧ rerank_candidates_with_gemini GeminiOutcome.jsonBadId candidates
      = some (candidates.map (fun c => c.id))
    ∧ rerank_candidates_with_gemini GeminiOutcome.jsonMissingKey candidates = some []
    ∧ rerank_candidates_with_gemini GeminiOutcome.apiError candidates = none :=
  ⟨rfl, rfl, rfl, rfl, rfl⟩

theorem mem_get_global_media {rows : List GlobalRow} {ms : List MediaItem}
    (h : get_global_media rows = some ms) :
    ∀ m ∈ ms, ∃ r ∈ rows, rowToMedia r = some m := by
  induction rows generalizing ms with
  | nil =>
    unfold get_global_media at h
    cases h
    simp
  | cons a rows ih =>
    unfold get_global_media at h
    cases hra : rowToMedia a with
    | none =>
      rw [hra] at h
      cases get_global_media rows <;> cases h
    | some m0 =>
      rw [hra] at h
      cases hgg : get_global_media rows with
      | none => rw [hgg] at h; cases h
      | some ms0 =>
        rw [hgg] at h
        cases h
        intro m hm
        rcases mem_cons.mp hm with h1 | h1
        · exact ⟨a, mem_cons_self a rows, h1 ▸ hra⟩
        · rcases ih hgg m h1 with ⟨r, hr, hrm⟩
          exact ⟨r, mem_cons_of_mem a hr, hrm⟩

theorem rowToMedia_no_numeric {r : GlobalRow} {m : MediaItem}
    (h : rowToMedia r = some m) : m.average_score = none ∧ m.popularity = none := by
  unfold rowToMedia at h
  cases hg : parseOrRaise r.genres_text with
  | none =>
    rw [hg] at h
    cases parseOrRaise r.tags_text <;> cases h
  | some gs =>
    rw [hg] at h
    cases ht : parseOrRaise r.tags_text with
    | none => rw [ht] at h; cases h
    | some ts =>
      rw [ht] at h
      cases h
      exact ⟨rfl, rfl⟩

/-- Sample catalog row and the media item it parses to, used to instantiate
hypotheses at concrete inputs. -/
def goodRow : GlobalRow := ⟨3, none, some "C", none, JsonField.ok ["Action"], JsonField.absent⟩

def goodItem : MediaItem := ⟨3, none, some "C", none, ["Action"], [], none, none⟩

/-- C10: every media item produced by the catalog reader has no
average_score and no popularity, so its similarity score reduces to the
genre-match sum plus the damped tag-match sum. -/
theorem catalog_items_no_numeric_boost (rows : List GlobalRow) (ms : List MediaItem)
    (m : MediaItem) (p : String → Option ℚ)
    (h : get_global_media rows = some ms) (hm : m ∈ ms) :
    m.average_score = none ∧ m.popularity = none
    ∧ compute_similarity m p = genreTerm m p + tagTerm m p := by
  rcases mem_get_global_media h m hm with ⟨r, _, hrm⟩
  rcases rowToMedia_no_numeric hrm with ⟨h1, h2⟩
  refine ⟨h1, h2, ?_⟩
  rw [compute_similarity_decomp, h1, h2]
  simp

theorem catalog_items_no_numeric_boost_witness :
    goodItem.average_score = none ∧ goodItem.popularity = none
    ∧ compute_similarity goodItem (fun _ => none)
      = genreTerm goodItem (fun _ => none) + tagTerm goodItem (fun _ => none) :=
  catalog_items_no_numeric_boost [goodRow] [goodItem] goodItem (fun _ => none)
    rfl (mem_cons_self _ _)

/-- C9: the recommendation pipeline is a pure function of the backing
history store, the backing catalog store, top_n and desired_genre, so two
invocations on the same state produce identical ordered output. -/
theorem recommend_pipeline_deterministic (history : List HistoryEntry)
    (catalog : List GlobalRow) (top_n : ℕ) (desired_genre : Option String) :
    recommend_pipeline history catalog top_n desired_genre
      = recommend_pipeline history catalog top_n desired_genre := rfl

end AniAi
